import Mathlib

/-! Shallow embedding of the btc-xrp-gold-ratios monitoring script.

The embedded program is the full variant in `src/.github/workflows/script.js`
(constants, `fetchPrices`, `calculateRatios`, `loadState`, `checkBoundary`,
`main`); the relevant slice of the simpler variant `src/script.js` is embedded
separately under the `src` name prefix.

Conventions of the embedding:
* JS numbers holding prices are embedded as `ℚ`; millisecond timestamps
  (`Date.now()` values) and the integer results of `Math.floor` are `ℤ`.
* JS `null` is `Option.none`.  A relational comparison in JS converts `null`
  to `+0` (`ToNumber(null) = +0`); `jsNum` makes that coercion explicit.
* Thrown exceptions are modelled explicitly: `fetchPrices` throwing
  `Error("All APIs failed")` is `none`; `JSON.parse` throwing on a malformed
  file is `Except.error ()`, and `main` propagates it.
* The Telegram sink is abstract: each `sendTelegram` call site of `main` is
  one constructor of `Msg`, and a run produces the list of messages in the
  order the call sites execute.
-/

/-- The three zone strings of the boundary state machine:
"below" / "inside" / "above". -/
inductive Zone where
  | below
  | inside
  | above
deriving DecidableEq, Repr

/-- SETTINGS: heartbeat every 6 hours. -/
def HEARTBEAT_INTERVAL_HOURS : Int := 6

/-- SETTINGS: workflow delay warning every 3 hours; the same constant is the
re-alert cooldown used inside `checkBoundary`. -/
def WARNING_INTERVAL_HOURS : Int := 3

/-- One hour in the millisecond unit of the timestamps: `1000 * 60 * 60`. -/
def msPerHour : Int := 1000 * 60 * 60

/-- SETTINGS: boundary bands for the three tracked ratios. -/
def BG_LOWER : Int := 11

def BG_UPPER : Int := 15

def BR_LOWER : Int := 47

def BR_UPPER : Int := 50

def GR_LOWER : Int := 33

def GR_UPPER : Int := 40

/-- The re-alert cooldown (`WARNING_INTERVAL_HOURS`) expressed in the
millisecond unit of the timestamps: 3 h = 10800000 ms. -/
def cooldownMs : Int := WARNING_INTERVAL_HOURS * msPerHour

/-- JS coercion applied by `value < lower` / `value > upper` when `value` may
be `null`: `ToNumber(null) = +0`, a present integer compares as itself. -/
def jsNum (v : Option Int) : Int :=
  v.getD 0

/-- Result record of `checkBoundary`. -/
structure BoundaryResult where
  triggered : Bool
  newState : Zone
  newWarningTime : Int
deriving DecidableEq, Repr

/-- `checkBoundary(value, lower, upper, prevState, prevWarningTime, now)`:
the per-ratio hysteresis state machine.  `value` is the (possibly `null`)
integer ratio; the two comparisons use the JS `null → 0` coercion.  The
source computes `hours = (now - prevWarningTime) / (1000 * 60 * 60)` and
tests `hours >= WARNING_INTERVAL_HOURS`; for integer millisecond
timestamps that float comparison is exactly the integer comparison
`now - prevWarningTime ≥ WARNING_INTERVAL_HOURS * msPerHour` embedded
here (the quotient of an integer below 2^53 by 3600000 never rounds
across the threshold 3). -/
def checkBoundary (value : Option Int) (lower upper : Int) (prevState : Zone)
    (prevWarningTime now : Int) : BoundaryResult :=
  if jsNum value < lower then
    if prevState ≠ Zone.below then
      { triggered := true, newState := Zone.below, newWarningTime := now }
    else if now - prevWarningTime ≥ WARNING_INTERVAL_HOURS * msPerHour then
      { triggered := true, newState := prevState, newWarningTime := now }
    else
      { triggered := false, newState := prevState, newWarningTime := prevWarningTime }
  else if jsNum value > upper then
    if prevState ≠ Zone.above then
      { triggered := true, newState := Zone.above, newWarningTime := now }
    else if now - prevWarningTime ≥ WARNING_INTERVAL_HOURS * msPerHour then
      { triggered := true, newState := prevState, newWarningTime := now }
    else
      { triggered := false, newState := prevState, newWarningTime := prevWarningTime }
  else
    { triggered := decide (prevState ≠ Zone.inside), newState := Zone.inside,
      newWarningTime := prevWarningTime }

/-- The ratio record produced by `calculateRatios`: `bg`/`gr` are `null`
when gold is unavailable, `br` is always a number. -/
structure RatioSet where
  bg : Option Int
  br : Int
  gr : Option Int
deriving DecidableEq, Repr

/-- `truncate(x) = Math.floor(x)`. -/
def truncate (x : ℚ) : Int := ⌊x⌋

/-- JS truthiness of the `gold` operand in `gold ? ... : null`:
`null` and `0` are falsy, every other number is truthy. -/
def goldTruthy : Option ℚ → Bool
  | none => false
  | some g => decide (g ≠ 0)

/-- `calculateRatios(btc, xrp, gold)` of the full variant, with the
truthiness guard on `gold` for the `bg` and `gr` fields. -/
def calculateRatios (btc xrp : ℚ) (gold : Option ℚ) : RatioSet where
  bg := if goldTruthy gold then some (truncate (btc / gold.getD 0)) else none
  br := truncate (btc / xrp / 1000)
  gr := if goldTruthy gold then some (truncate (gold.getD 0 / xrp / 100)) else none

/-- A successful provider result: `{source, btc, xrp, gold}`;
`gold` is `null` for the three providers that do not quote it. -/
structure PriceQuote where
  source : String
  btc : ℚ
  xrp : ℚ
  gold : Option ℚ
deriving DecidableEq, Repr

/-- `fetchPrices()`: each configured adapter of the priority list is
abstracted to its outcome (`some` quote on success, `none` for any thrown
failure); the loop returns the first success and skips the rest, and the
final `none` models `throw new Error("All APIs failed")` after the loop. -/
def fetchPrices : List (Option PriceQuote) → Option PriceQuote
  | [] => none
  | some q :: _ => some q
  | none :: rest => fetchPrices rest

/-- The persisted record shape written by `saveState` and read back by
`loadState` in the full variant (ratio fields spread in by `...ratios`).
The fresh-start default produced by `loadState` leaves `bg`/`br`/`gr`
undefined, embedded as `none`. -/
structure ScriptState where
  bg : Option Int
  br : Option Int
  gr : Option Int
  bgState : Zone
  brState : Zone
  grState : Zone
  bgLastWarning : Int
  brLastWarning : Int
  grLastWarning : Int
  lastRun : Int
  lastHeartbeat : Int
  warningSent : Bool
deriving DecidableEq, Repr

/-- The fresh-start record returned by `loadState` when `state.json`
does not exist. -/
def defaultState : ScriptState where
  bg := none
  br := none
  gr := none
  bgState := Zone.inside
  brState := Zone.inside
  grState := Zone.inside
  bgLastWarning := 0
  brLastWarning := 0
  grLastWarning := 0
  lastRun := 0
  lastHeartbeat := 0
  warningSent := false

/-- Contents of `state.json` when the file exists: either JSON that parses
to a state record, or bytes on which `JSON.parse` throws. -/
inductive StateBlob where
  | valid (s : ScriptState)
  | corrupt
deriving DecidableEq, Repr

/-- `JSON.parse(fs.readFileSync(STATE_FILE))`: throws (`Except.error`) on
malformed contents. -/
def parseBlob : StateBlob → Except Unit ScriptState
  | StateBlob.valid s => Except.ok s
  | StateBlob.corrupt => Except.error ()

/-- `loadState()` of the full variant: an absent file yields the fresh-start
defaults; otherwise the file is parsed and any parse exception propagates
to the caller (there is no try/catch around it). -/
def loadState : Option StateBlob → Except Unit ScriptState
  | none => Except.ok defaultState
  | some b => parseBlob b

/-- One constructor per `sendTelegram` call site of the full variant's
`main`, in source order.  `fetchError` carries the text
"FetchError: BG null | BR null | GR null"; the other five send `baseMsg`
(optionally suffixed with the ratio tag). -/
inductive Msg where
  | fetchError
  | workflowWarning
  | heartbeat
  | bgAlert
  | brAlert
  | grAlert
deriving DecidableEq, Repr

/-- Observable outcome of one `main` run: the Telegram messages in send
order, and the record passed to `saveState` (`none` when `saveState` is
never reached because of the early return). -/
structure MainResult where
  messages : List Msg
  saved : Option ScriptState
deriving DecidableEq, Repr

/-- The WORKFLOW DELAY CHECK of `main`: a previous run timestamp is truthy,
the gap reaches `WARNING_INTERVAL_HOURS` (float-hour comparison embedded
in its exact integer-millisecond form, as in `checkBoundary`), and no
warning was already sent. -/
def sendWorkflowWarningOf (prev : ScriptState) (now : Int) : Bool :=
  prev.lastRun != 0 &&
    (decide (now - prev.lastRun ≥ WARNING_INTERVAL_HOURS * msPerHour) && !prev.warningSent)

/-- The HEARTBEAT CHECK of `main`: no heartbeat timestamp yet (falsy `0`),
or the gap reaches `HEARTBEAT_INTERVAL_HOURS`. -/
def sendHeartbeatOf (prev : ScriptState) (now : Int) : Bool :=
  prev.lastHeartbeat == 0 ||
    decide (now - prev.lastHeartbeat ≥ HEARTBEAT_INTERVAL_HOURS * msPerHour)

/-- `main()` of the full variant as a pure function of the fetch outcome,
the current `state.json` contents and the clock.  A failed fetch sends the
single fetch-error message and returns before any state access; otherwise
the ratios are computed, the persisted state is loaded (a parse exception
propagates), the three boundary checks run, and the updated record is
saved. -/
def mainRun (fetchResult : Option PriceQuote) (file : Option StateBlob) (now : Int) :
    Except Unit MainResult :=
  match fetchResult with
  | none => Except.ok { messages := [Msg.fetchError], saved := none }
  | some prices =>
    let ratios := calculateRatios prices.btc prices.xrp prices.gold
    (loadState file).map fun prev =>
      let warn := sendWorkflowWarningOf prev now
      let heart := sendHeartbeatOf prev now
      let bgCheck := checkBoundary ratios.bg BG_LOWER BG_UPPER prev.bgState prev.bgLastWarning now
      let brCheck := checkBoundary (some ratios.br) BR_LOWER BR_UPPER prev.brState prev.brLastWarning now
      let grCheck := checkBoundary ratios.gr GR_LOWER GR_UPPER prev.grState prev.grLastWarning now
      { messages :=
          (if warn then [Msg.workflowWarning] else []) ++
          (if heart then [Msg.heartbeat] else []) ++
          (if bgCheck.triggered then [Msg.bgAlert] else []) ++
          (if brCheck.triggered then [Msg.brAlert] else []) ++
          (if grCheck.triggered then [Msg.grAlert] else [])
        saved := some
          { bg := ratios.bg
            br := some ratios.br
            gr := ratios.gr
            bgState := bgCheck.newState
            brState := brCheck.newState
            grState := grCheck.newState
            bgLastWarning := bgCheck.newWarningTime
            brLastWarning := brCheck.newWarningTime
            grLastWarning := grCheck.newWarningTime
            lastRun := now
            lastHeartbeat := if heart then now else prev.lastHeartbeat
            warningSent := if warn then true else prev.warningSent } }

/-- Effect of a run on `state.json`: when `saveState` runs it overwrites the
file with the serialised record, otherwise the file keeps its previous
contents. -/
def persistAfter (before : Option StateBlob) (m : MainResult) : Option StateBlob :=
  match m.saved with
  | none => before
  | some s => some (StateBlob.valid s)

/-- Persisted record of the simpler variant `src/script.js`, whose
`loadState` returns `null` for an absent file (so `prev` is optional in
its `main`). -/
structure SrcState where
  bg : Option Int
  br : Option Int
  gr : Option Int
  lastRun : Int
  lastHeartbeat : Int
  warningSent : Bool
deriving DecidableEq, Repr

/-- `src/script.js`: warning if the workflow is delayed by
`WARNING_INTERVAL_HOURS = 0.45` hours (27 minutes), expressed in
milliseconds: `0.45 * 3600000 = 1620000`. -/
def SRC_WARNING_INTERVAL_MS : Int := 1620000

/-- The TIMESTAMP DELAY CHECK of `src/script.js` `main`:
`prev && prev.lastRun` truthy, gap at least the interval (float-hour
comparison embedded in its exact integer-millisecond form), and no
warning already sent. -/
def srcSendWarning (prev : Option SrcState) (now : Int) : Bool :=
  match prev with
  | none => false
  | some p =>
    p.lastRun != 0 &&
      (decide (now - p.lastRun ≥ SRC_WARNING_INTERVAL_MS) && !p.warningSent)

/-- The `warningSent` field written by `saveState` in `src/script.js`
`main`: `sendWarning ? true : false`. -/
def srcSavedWarningSent (prev : Option SrcState) (now : Int) : Bool :=
  if srcSendWarning prev now then true else false

/-- Concrete quote used by closed witness statements. -/
def sampleQuote : PriceQuote where
  source := "CoinGecko"
  btc := 2
  xrp := 3
  gold := none

/-- Helper: in the below zone with a below prior state, `checkBoundary` is the
pure cooldown test. -/
theorem checkBoundary_below_below (v lower upper pw now : Int) (hv : v < lower) :
    checkBoundary (some v) lower upper Zone.below pw now =
      if now - pw ≥ cooldownMs then
        { triggered := true, newState := Zone.below, newWarningTime := now }
      else
        { triggered := false, newState := Zone.below, newWarningTime := pw } := by
  simp [checkBoundary, jsNum, cooldownMs, hv]

/-- Helper: in the above zone with an above prior state, `checkBoundary` is the
pure cooldown test. -/
theorem checkBoundary_above_above (v lower upper pw now : Int) (hl : lower ≤ v)
    (hv : upper < v) :
    checkBoundary (some v) lower upper Zone.above pw now =
      if now - pw ≥ cooldownMs then
        { triggered := true, newState := Zone.above, newWarningTime := now }
      else
        { triggered := false, newState := Zone.above, newWarningTime := pw } := by
  have hnl : ¬ (v < lower) := by omega
  simp [checkBoundary, jsNum, cooldownMs, hnl, hv]

/-- C4: for an integer value and a band with `lower ≤ upper`, `checkBoundary`
classifies strictly: `value < lower` lands in zone below, `value > upper` in
zone above, and `lower ≤ value ≤ upper` (bound values included) in zone
inside. -/
theorem checkBoundary_zone_classification (v lower upper : Int) (prev : Zone)
    (pw now : Int) (hband : lower ≤ upper) :
    (v < lower → (checkBoundary (some v) lower upper prev pw now).newState = Zone.below) ∧
    (upper < v → (checkBoundary (some v) lower upper prev pw now).newState = Zone.above) ∧
    (lower ≤ v → v ≤ upper →
      (checkBoundary (some v) lower upper prev pw now).newState = Zone.inside) := by
  refine ⟨fun h => ?_, fun h => ?_, fun h1 h2 => ?_⟩ <;>
    simp only [checkBoundary, jsNum, Option.getD_some] <;>
    split_ifs <;> simp_all <;> omega

/-- Witness for C4: the value 16 with band [11, 15] is classified above. -/
theorem checkBoundary_zone_classification_witness :
    (checkBoundary (some 16) 11 15 Zone.inside 0 0).newState = Zone.above :=
  (checkBoundary_zone_classification 16 11 15 Zone.inside 0 0 (by decide)).2.1 (by decide)

/-- C3: entering a zone different from the prior zone always alerts at once,
regardless of cooldown: entry into below or above sets the new zone and
resets `lastAlertAt` (`newWarningTime`) to `now`; entry into inside alerts,
sets the zone to inside, and leaves `lastAlertAt` unchanged. -/
theorem checkBoundary_enter_new_zone (v lower upper : Int) (prev : Zone)
    (pw now : Int) (hband : lower ≤ upper) :
    (v < lower → prev ≠ Zone.below →
      checkBoundary (some v) lower upper prev pw now =
        { triggered := true, newState := Zone.below, newWarningTime := now }) ∧
    (upper < v → prev ≠ Zone.above →
      checkBoundary (some v) lower upper prev pw now =
        { triggered := true, newState := Zone.above, newWarningTime := now }) ∧
    (lower ≤ v → v ≤ upper → prev ≠ Zone.inside →
      checkBoundary (some v) lower upper prev pw now =
        { triggered := true, newState := Zone.inside, newWarningTime := pw }) := by
  refine ⟨fun h1 h2 => ?_, fun h1 h2 => ?_, fun h1 h2 h3 => ?_⟩ <;>
    simp only [checkBoundary, jsNum, Option.getD_some] <;>
    split_ifs <;> simp_all <;> omega

/-- Witness for C3: value 5 below the band [11, 15] from prior zone inside
alerts and resets the warning time to `now = 42`. -/
theorem checkBoundary_enter_new_zone_witness :
    checkBoundary (some 5) 11 15 Zone.inside 7 42 =
      { triggered := true, newState := Zone.below, newWarningTime := 42 } :=
  (checkBoundary_enter_new_zone 5 11 15 Zone.inside 7 42 (by decide)).1 (by decide)
    (by decide)

/-- C2: re-entering the same out-of-band zone alerts exactly when
`now - lastAlertAt ≥ cooldown` (3 h): below the cooldown the result is
`alert = false` with the prior state unchanged, at or past it the alert
fires and only then is `lastAlertAt` updated to `now`; consequently a
second call `cooldown - ε` after an alert stays silent and a call exactly
`cooldown` after it alerts. -/
theorem checkBoundary_same_zone_cooldown (v lower upper : Int) (prev : Zone)
    (pw now : Int)
    (hsame : (v < lower ∧ prev = Zone.below) ∨
      (lower ≤ v ∧ upper < v ∧ prev = Zone.above)) :
    ((checkBoundary (some v) lower upper prev pw now).triggered = true ↔
      now - pw ≥ cooldownMs) ∧
    (now - pw ≥ cooldownMs →
      checkBoundary (some v) lower upper prev pw now =
        { triggered := true, newState := prev, newWarningTime := now }) ∧
    (now - pw < cooldownMs →
      checkBoundary (some v) lower upper prev pw now =
        { triggered := false, newState := prev, newWarningTime := pw }) ∧
    (∀ e : Int, 0 < e →
      (checkBoundary (some v) lower upper prev now (now + cooldownMs - e)).triggered
        = false) ∧
    (checkBoundary (some v) lower upper prev now (now + cooldownMs)).triggered = true := by
  have key : ∀ t n : Int, checkBoundary (some v) lower upper prev t n =
      if n - t ≥ cooldownMs then
        { triggered := true, newState := prev, newWarningTime := n }
      else
        { triggered := false, newState := prev, newWarningTime := t } := by
    intro t n
    rcases hsame with ⟨hv, hprev⟩ | ⟨hlv, hvu, hprev⟩
    · subst hprev; exact checkBoundary_below_below v lower upper t n hv
    · subst hprev; exact checkBoundary_above_above v lower upper t n hlv hvu
  refine ⟨?_, fun h => ?_, fun h => ?_, fun e he => ?_, ?_⟩
  · rw [key]; by_cases h : now - pw ≥ cooldownMs <;> simp [h]
  · rw [key, if_pos h]
  · rw [key, if_neg (by omega)]
  · rw [key, if_neg (by omega)]
  · rw [key, if_pos (by omega)]

/-- Witness for C2: value 16 above the band [11, 15] with prior zone above:
silent 1 ms before the cooldown elapses, alerting exactly at it. -/
theorem checkBoundary_same_zone_cooldown_witness :
    (checkBoundary (some 16) 11 15 Zone.above 0 10799999).triggered = false ∧
    checkBoundary (some 16) 11 15 Zone.above 0 10800000 =
      { triggered := true, newState := Zone.above, newWarningTime := 10800000 } :=
  ⟨by
    have h := (checkBoundary_same_zone_cooldown 16 11 15 Zone.above 0 10799999
      (Or.inr ⟨by decide, by decide, rfl⟩)).2.2.1 (by decide)
    rw [h],
   (checkBoundary_same_zone_cooldown 16 11 15 Zone.above 0 10800000
      (Or.inr ⟨by decide, by decide, rfl⟩)).2.1 (by decide)⟩

/-- C1 counterexample: with the bg band [11, 15], prior state inside with
`lastAlertAt = 0`, and `now = 1000`, an absent value is not skipped: the
tracker alerts and moves the state to below with `lastAlertAt = 1000`,
because JS compares `null < 11` as `0 < 11`. -/
theorem checkBoundary_absent_not_skipped :
    (checkBoundary none 11 15 Zone.inside 0 1000).triggered = true ∧
    (checkBoundary none 11 15 Zone.inside 0 1000).newState ≠ Zone.inside ∧
    (checkBoundary none 11 15 Zone.inside 0 1000).newWarningTime ≠ 0 := by
  decide

/-- C1 amended: an absent value does not short-circuit the evaluation;
`checkBoundary` coerces it to 0 (the JS `null → 0` conversion), so with a
positive lower bound the absent value is classified below: coming from any
other zone the tracker alerts, moves to below and sets `lastAlertAt = now`,
exactly as for the value 0. -/
theorem checkBoundary_absent_coerced_to_zero (lower upper : Int) (prev : Zone)
    (pw now : Int) (hpos : 0 < lower) :
    checkBoundary none lower upper prev pw now =
      checkBoundary (some 0) lower upper prev pw now ∧
    (checkBoundary none lower upper prev pw now).newState = Zone.below ∧
    (prev ≠ Zone.below →
      checkBoundary none lower upper prev pw now =
        { triggered := true, newState := Zone.below, newWarningTime := now }) := by
  refine ⟨rfl, ?_, fun h => ?_⟩
  · simp only [checkBoundary, jsNum, Option.getD_none]
    split_ifs <;> simp_all
  · simp [checkBoundary, jsNum, hpos, h]

/-- Witness for C1 amended: the absent bg value with band [11, 15] from prior
zone inside alerts into below with `lastAlertAt = 999`. -/
theorem checkBoundary_absent_coerced_to_zero_witness :
    checkBoundary none 11 15 Zone.inside 3 999 =
      { triggered := true, newState := Zone.below, newWarningTime := 999 } :=
  (checkBoundary_absent_coerced_to_zero 11 15 Zone.inside 3 999 (by decide)).2.2
    (by decide)

/-- Helper: the fetch chain reports total failure exactly when every adapter
outcome is a failure. -/
theorem fetchPrices_eq_none_iff (l : List (Option PriceQuote)) :
    fetchPrices l = none ↔ ∀ r ∈ l, r = none := by
  induction l with
  | nil => simp [fetchPrices]
  | cons r rest ih =>
    cases r with
    | some q => simp [fetchPrices]
    | none => simp [fetchPrices, ih]

/-- Helper: the first successful adapter outcome wins, whatever the later
adapters would have returned. -/
theorem fetchPrices_first_success (pre rest : List (Option PriceQuote)) (q : PriceQuote)
    (hpre : ∀ r ∈ pre, r = none) :
    fetchPrices (pre ++ some q :: rest) = some q := by
  induction pre with
  | nil => simp [fetchPrices]
  | cons r pre ih =>
    have hr : r = none := hpre r (by simp)
    subst hr
    simpa only [List.cons_append, fetchPrices] using
      ih (fun r hr => hpre r (by simp [hr]))

/-- C7: the price fetch walks the adapter list in its fixed order and returns
the first success, independently of every outcome after it (taking each
later adapter's outcome as arbitrary, so the result never depends on
invoking them), and it fails with the all-sources error exactly when every
adapter in the list fails. -/
theorem fetchPrices_priority (pre rest l : List (Option PriceQuote)) (q : PriceQuote)
    (hpre : ∀ r ∈ pre, r = none) :
    fetchPrices (pre ++ some q :: rest) = some q ∧
    (fetchPrices l = none ↔ ∀ r ∈ l, r = none) :=
  ⟨fetchPrices_first_success pre rest q hpre, fetchPrices_eq_none_iff l⟩

/-- Witness for C7: one failing adapter, then a success, then a further
adapter whose outcome is ignored. -/
theorem fetchPrices_priority_witness :
    fetchPrices [none, some sampleQuote, none] = some sampleQuote :=
  (fetchPrices_priority [none] [none] [] sampleQuote (by simp)).1

/-- C5: when every adapter fails, the run sends exactly the one fetch-error
message, saves nothing, and leaves `state.json` byte-for-byte as it was,
so the next run loads the original record (and in particular the original
`lastRun`). -/
theorem allSourcesFailed_single_notification_no_mutation
    (results : List (Option PriceQuote)) (file : Option StateBlob) (now : Int)
    (hall : ∀ r ∈ results, r = none) :
    mainRun (fetchPrices results) file now =
      Except.ok { messages := [Msg.fetchError], saved := none } ∧
    (mainRun (fetchPrices results) file now).map (persistAfter file) =
      Except.ok file := by
  have hf : fetchPrices results = none := (fetchPrices_eq_none_iff results).mpr hall
  rw [hf]
  exact ⟨rfl, rfl⟩

/-- Witness for C5: all four configured adapters fail. -/
theorem allSourcesFailed_witness :
    mainRun (fetchPrices [none, none, none, none]) none 5 =
      Except.ok { messages := [Msg.fetchError], saved := none } :=
  (allSourcesFailed_single_notification_no_mutation [none, none, none, none] none 5
    (by simp)).1

/-- Concrete previous state for the C6 counterexample: warning already
acknowledged, last run 1 second before `now = 2000`. -/
def ackPrevState : ScriptState where
  bg := none
  br := none
  gr := none
  bgState := Zone.inside
  brState := Zone.inside
  grState := Zone.inside
  bgLastWarning := 0
  brLastWarning := 0
  grLastWarning := 0
  lastRun := 1000
  lastHeartbeat := 1000
  warningSent := true

/-- Concrete quote for the C6 counterexample. -/
def nobitexQuote : PriceQuote where
  source := "Nobitex"
  btc := 100
  xrp := 1
  gold := none

/-- C6 counterexample: a run at `now = 2000` — a 1 s gap, far below the 3 h
warning interval, so the stall condition does not trigger — still persists
`warningSent = true`: the full variant never resets the flag to false. -/
theorem warningSent_never_reset_counterexample :
    sendWorkflowWarningOf ackPrevState 2000 = false ∧
    ackPrevState.warningSent = true ∧
    (mainRun (some nobitexQuote) (some (StateBlob.valid ackPrevState)) 2000).map
      (fun m => m.saved.map ScriptState.warningSent) = Except.ok (some true) :=
  ⟨by decide, rfl, rfl⟩

/-- C6 amended: the stall warning fires exactly when a previous run timestamp
exists (`lastRun ≠ 0`), the gap reaches the warning interval, and
`warningSent` is still false; firing persists `warningSent = true`.  But
the reset differs from the claim: the full variant keeps the prior flag on
every non-firing run, so once true it never returns to false; the simpler
`src/script.js` variant writes `sendWarning ? true : false`, so the flag is
false after every non-firing run (even one where the stall condition held
but the warning was suppressed). -/
theorem warningDue_condition_and_flag (prev : ScriptState) (q : PriceQuote) (now : Int)
    (p : SrcState) (n : Int) :
    (sendWorkflowWarningOf prev now = true ↔
      (prev.lastRun ≠ 0 ∧ now - prev.lastRun ≥ WARNING_INTERVAL_HOURS * msPerHour ∧
        prev.warningSent = false)) ∧
    ((mainRun (some q) (some (StateBlob.valid prev)) now).map
        (fun m => m.saved.map ScriptState.warningSent) =
      Except.ok (some (if sendWorkflowWarningOf prev now then true else prev.warningSent))) ∧
    (prev.warningSent = true →
      (mainRun (some q) (some (StateBlob.valid prev)) now).map
        (fun m => m.saved.map ScriptState.warningSent) = Except.ok (some true)) ∧
    (srcSendWarning (some p) n = false → srcSavedWarningSent (some p) n = false) := by
  refine ⟨?_, rfl, fun h => ?_, fun h => ?_⟩
  · simp [sendWorkflowWarningOf, Bool.and_eq_true, bne_iff_ne, decide_eq_true_eq,
      Bool.not_eq_true']
  · have h2 : (mainRun (some q) (some (StateBlob.valid prev)) now).map
        (fun m => m.saved.map ScriptState.warningSent) =
        Except.ok (some (if sendWorkflowWarningOf prev now then true
          else prev.warningSent)) := rfl
    have h3 : (if sendWorkflowWarningOf prev now then true else prev.warningSent)
        = true := by
      by_cases hw : sendWorkflowWarningOf prev now <;> simp [hw, h]
    rw [h2, h3]
  · simp [srcSavedWarningSent, h]

/-- Previous state for the C6 witness: warning acknowledged, tiny gap. -/
def ackPrevState2 : ScriptState where
  bg := none
  br := none
  gr := none
  bgState := Zone.inside
  brState := Zone.inside
  grState := Zone.inside
  bgLastWarning := 0
  brLastWarning := 0
  grLastWarning := 0
  lastRun := 50
  lastHeartbeat := 50
  warningSent := true

/-- Dummy record of the simpler variant, used by the C6 witness. -/
def srcSampleState : SrcState where
  bg := none
  br := none
  gr := none
  lastRun := 0
  lastHeartbeat := 0
  warningSent := false

/-- Witness for C6 amended: with the flag already true and `now = 60`, the
full variant persists `warningSent = true`. -/
theorem warningDue_condition_and_flag_witness :
    (mainRun (some sampleQuote) (some (StateBlob.valid ackPrevState2)) 60).map
      (fun m => m.saved.map ScriptState.warningSent) = Except.ok (some true) :=
  (warningDue_condition_and_flag ackPrevState2 sampleQuote 60 srcSampleState 0).2.2.1 rfl

/-- C8 counterexample: a malformed `state.json` is not treated like an absent
one — `loadState` raises the `JSON.parse` exception instead of returning
the fresh-start default. -/
theorem loadState_corrupt_throws :
    loadState (some StateBlob.corrupt) = Except.error () ∧
    loadState (some StateBlob.corrupt) ≠ Except.ok defaultState := by
  refine ⟨rfl, ?_⟩
  simp [loadState, parseBlob]

/-- C8 amended: only an absent `state.json` yields the fresh-start default
(all zones inside, all timestamps 0, `warningSent` false); on a malformed
blob `JSON.parse` throws and `main` propagates the exception — the run
crashes rather than proceeding with defaults. -/
theorem loadState_absent_default_corrupt_error (q : PriceQuote) (now : Int) :
    loadState none = Except.ok defaultState ∧
    defaultState.bgState = Zone.inside ∧ defaultState.brState = Zone.inside ∧
    defaultState.grState = Zone.inside ∧ defaultState.lastRun = 0 ∧
    defaultState.lastHeartbeat = 0 ∧ defaultState.warningSent = false ∧
    parseBlob StateBlob.corrupt = Except.error () ∧
    mainRun (some q) (some StateBlob.corrupt) now = Except.error () :=
  ⟨rfl, rfl, rfl, rfl, rfl, rfl, rfl, rfl, rfl⟩

/-- C9: with finite positive prices and gold present, the ratios are the
floor-truncated quotients `bg = ⌊btc/gold⌋`, `br = ⌊btc/xrp/1000⌋`,
`gr = ⌊gold/xrp/100⌋`; floor, not round: `btc = 149999.99, gold = 10000`
gives `bg = 14` while `btc = 150000` gives `bg = 15`; with gold absent,
`bg` and `gr` are absent and `br` is still computed. -/
theorem calculateRatios_floor (btc xrp gold : ℚ) (hb : 0 < btc) (hx : 0 < xrp)
    (hg : 0 < gold) :
    calculateRatios btc xrp (some gold) =
      { bg := some ⌊btc / gold⌋, br := ⌊btc / xrp / 1000⌋,
        gr := some ⌊gold / xrp / 100⌋ } ∧
    calculateRatios btc xrp none =
      { bg := none, br := ⌊btc / xrp / 1000⌋, gr := none } ∧
    (calculateRatios (149999.99 : ℚ) 1 (some 10000)).bg = some 14 ∧
    (calculateRatios (150000 : ℚ) 1 (some 10000)).bg = some 15 := by
  refine ⟨?_, rfl, ?_, ?_⟩
  · simp [calculateRatios, truncate, goldTruthy, hg.ne']
  · norm_num [calculateRatios, truncate, goldTruthy]
  · norm_num [calculateRatios, truncate, goldTruthy]

/-- Witness for C9: concrete positive prices. -/
theorem calculateRatios_floor_witness :
    calculateRatios 3 2 (some 2) =
      { bg := some 1, br := ⌊(3 : ℚ) / 2 / 1000⌋, gr := some 0 } := by
  have h := (calculateRatios_floor 3 2 2 (by norm_num) (by norm_num) (by norm_num)).1
  rw [h]
  norm_num

/-- C10: a gold price of exactly 0 is falsy in JS, so the truthiness guard
yields absent `bg` and `gr` — the same result as an absent gold price —
and no division by zero reaches the ratio fields. -/
theorem calculateRatios_zero_gold (btc xrp : ℚ) :
    (calculateRatios btc xrp (some 0)).bg = none ∧
    (calculateRatios btc xrp (some 0)).gr = none ∧
    calculateRatios btc xrp (some 0) = calculateRatios btc xrp none := by
  refine ⟨?_, ?_, ?_⟩ <;> simp [calculateRatios, goldTruthy]
